import Mathlib

/-!
Verification development for the clewcrew-agents expert framework.

The Python source is shallowly embedded here.  Conventions of the embedding:

* Python floats are modelled as exact rationals (`ℚ`); every float literal in
  the source is an exact decimal, so the arithmetic carries over verbatim.
* Python dicts used as findings are modelled by the structure `Finding`; keys
  that are present in every finding constructed by the repository are plain
  fields, keys that only some constructors populate are `Option` fields
  (`none` = key absent, and reading an absent key raises, which is modelled
  with `Except`).
* The filesystem is modelled by `FS`, a list of files with path and text.
  Directories exist implicitly: a directory path exists when some file lies
  beneath it.  A non-existent project root is the `FS` with no files: every
  existence probe is false and every recursive glob is empty.
* The regex patterns used by the security expert fall into two shapes, which
  are modelled exactly: a literal string (all the subprocess patterns, whose
  only metacharacter is an escaped dot), and a literal head followed by a
  fixed number of `[a-zA-Z0-9]` characters (all the credential patterns).
  `patSearch` implements the `re.search` semantics for these shapes: a match
  may start at any position of the text.
* String scanning helpers are written as structural recursion over character
  lists so that all of them evaluate inside the kernel.
-/

namespace Clewcrew

/-- Boolean test that `needle` occurs contiguously somewhere inside `hay`
(Python `needle in hay`). -/
def containsAux (needle : List Char) : List Char → Bool
  | [] => needle.isPrefixOf []
  | c :: t => needle.isPrefixOf (c :: t) || containsAux needle t

def strContains (hay sub : String) : Bool := containsAux sub.data hay.data

def strEndsWith (s suf : String) : Bool := suf.data.reverse.isPrefixOf s.data.reverse

def strStartsWith (s pre : String) : Bool := pre.data.isPrefixOf s.data

/-- Split a character list at every occurrence of `sep`
(Python `str.split(sep)` semantics: empty pieces are kept). -/
def splitOnCharAux (sep : Char) : List Char → List Char → List (List Char)
  | acc, [] => [acc.reverse]
  | acc, c :: t => if c = sep then acc.reverse :: splitOnCharAux sep [] t
                   else splitOnCharAux sep (c :: acc) t

def splitOnChar (sep : Char) (cs : List Char) : List (List Char) := splitOnCharAux sep [] cs

def strSplitOnChar (sep : Char) (s : String) : List String :=
  (splitOnChar sep s.data).map String.mk

/-- Python `str.strip()`: remove whitespace from both ends. -/
def trimChars (cs : List Char) : List Char :=
  ((cs.dropWhile Char.isWhitespace).reverse.dropWhile Char.isWhitespace).reverse

def strTrim (s : String) : String := String.mk (trimChars s.data)

def strLower (s : String) : String := String.mk (s.data.map Char.toLower)

/-- Python `str.split()` with no argument: split on whitespace runs, dropping
empty pieces. -/
def pySplitWs (s : String) : List String :=
  ((splitOnChar ' ' s.data).map String.mk).filter (fun w => w ≠ "")

/-- Python `str.isdigit()` restricted to ASCII decimal digits. -/
def isPyDigits (s : String) : Bool := !s.data.isEmpty && s.data.all Char.isDigit

/-- Python `int(s)` on an all-digit string. -/
def digitsToNat (s : String) : Nat := s.data.foldl (fun n c => n * 10 + (c.toNat - 48)) 0

def strJoinWith (sep : String) (parts : List String) : String :=
  String.mk (List.intercalate sep.data (parts.map String.data))

/-- A regex from the two fixed families used by the security expert:
`credTok pre n` stands for the pattern `pre[a-zA-Z0-9]{n}` and
`litTok s` stands for a pattern that matches the literal text `s`
(dots escaped in the regex source). -/
inductive Pat where
  | credTok (pre : String) (suffixLen : Nat)
  | litTok (s : String)
deriving DecidableEq

/-- Does the pattern match starting exactly at the head of `cs`? -/
def patMatchAt : Pat → List Char → Bool
  | .litTok s, cs => s.data.isPrefixOf cs
  | .credTok pre n, cs =>
      pre.data.isPrefixOf cs &&
      (((cs.drop pre.data.length).take n).length == n) &&
      ((cs.drop pre.data.length).take n).all Char.isAlphanum

/-- `re.search` semantics: the pattern may match starting at any position. -/
def searchAux (p : Pat) : List Char → Bool
  | [] => patMatchAt p []
  | c :: t => patMatchAt p (c :: t) || searchAux p t

def patSearchChars (p : Pat) (cs : List Char) : Bool := searchAux p cs

def patSearch (p : Pat) (s : String) : Bool := searchAux p s.data

/-- The regex source text of a pattern, as it appears in the Python source
(used in finding descriptions and fix templates). -/
def escapeDots (s : String) : String :=
  String.mk (s.data.foldr (fun c r => if c = '.' then '\\' :: '.' :: r else c :: r) [])

def patSrc : Pat → String
  | .credTok pre n => pre ++ "[a-zA-Z0-9]\x7b" ++ toString n ++ "\x7d"
  | .litTok s => escapeDots s

/-- One element of the list parsed from `flake8_report.json` by `json.load`:
the dict fields that `_analyze_existing_flake8_outputs` reads, each optional
because `dict.get` supplies a default. -/
structure FlakeIssue where
  filename : Option String := none
  line_number : Option Nat := none
  column_number : Option Nat := none
  code : Option String := none
  text : Option String := none
deriving DecidableEq

/-- A finding dict.  `ftype` is the dict key `"type"` (renamed because `type`
is reserved), `patt` is the key `"pattern"`.  Fields typed `Option _` model
keys that only some finding constructors populate. -/
structure Finding where
  ftype : String
  file : String
  priority : String
  description : String
  patt : Option Pat := none
  line : Option Nat := none
  column : Option Nat := none
  code : Option String := none
  tool : Option String := none
  source : Option String := none
deriving DecidableEq

/-- Result of one expert run (`HallucinationResult` in `base_expert.py`). -/
structure HallucinationResult where
  hallucinations : List Finding
  confidence : ℚ
  recommendations : List String
deriving DecidableEq

/-- One file of the scanned project.  `readable = false` models a file whose
read raises (the experts catch the exception, log and skip).  `jsonList` is
the value `json.load` would produce when the text parses as a JSON array of
objects (an external stdlib call, so its output is part of the input model);
`none` means `json.load` raises. -/
structure FSFile where
  path : String
  text : String
  readable : Bool := true
  jsonList : Option (List FlakeIssue) := none
deriving DecidableEq

/-- The read-only filesystem under the project root; paths are relative to
the root and use `/` separators. -/
structure FS where
  files : List FSFile
deriving DecidableEq

def emptyFS : FS := ⟨[]⟩

/-- Strip one trailing slash (how `pathlib` normalizes `root / "docs/"`). -/
def normPath (p : String) : String :=
  match p.data.getLast? with
  | some c => if c = '/' then String.mk p.data.dropLast else p
  | none => p

def FS.pathExists (fs : FS) (p : String) : Bool :=
  fs.files.any (fun f => f.path == p || (p ++ "/").data.isPrefixOf f.path.data)

def FS.isDir (fs : FS) (p : String) : Bool :=
  fs.files.any (fun f => (p ++ "/").data.isPrefixOf f.path.data)

/-- Contents of a file opened for reading; `none` when the open or read would
raise (missing file, directory, or unreadable file). -/
def FS.readFile? (fs : FS) (p : String) : Option FSFile :=
  (fs.files.find? (fun f => f.path == p)).bind (fun f => if f.readable then some f else none)

def underDir (dir path : String) : Bool :=
  if dir = "" then true else (dir ++ "/").data.isPrefixOf path.data

def basename (p : String) : String :=
  match (strSplitOnChar '/' p).getLast? with
  | some b => b
  | none => p

def parentDir (p : String) : String :=
  strJoinWith "/" (strSplitOnChar '/' p).dropLast

/-- `dir.rglob("*. ext")`-style query: files under `dir` whose name ends with
`ext`.  `dir = ""` is the project root. -/
def FS.rglobExt (fs : FS) (dir ext : String) : List String :=
  (fs.files.filter (fun f => underDir dir f.path && strEndsWith f.path ext)).map (·.path)

/-- `dir.rglob(name)` for an exact file name. -/
def FS.rglobName (fs : FS) (dir name : String) : List String :=
  (fs.files.filter (fun f => underDir dir f.path && basename f.path == name)).map (·.path)

/-- `dir.rglob("*sub*")`: files under `dir` whose name contains `sub`. -/
def FS.rglobNameContains (fs : FS) (dir sub : String) : List String :=
  (fs.files.filter (fun f => underDir dir f.path && strContains (basename f.path) sub)).map (·.path)

/-- BaseExpert.calculate_confidence (`base_expert.py`): 0.9 on no findings,
otherwise 0.8 minus 0.1 per high-priority finding minus 0.2 per
critical-priority finding, clamped to [0, 1]. -/
def calculate_confidence (findings : List Finding) : ℚ :=
  if findings.isEmpty then 0.9
  else
    let base_confidence : ℚ := 0.8
    let high_priority := (findings.filter (fun f => f.priority == "high")).length
    let critical_priority := (findings.filter (fun f => f.priority == "critical")).length
    let confidence := base_confidence - (high_priority : ℚ) * 0.1 - (critical_priority : ℚ) * 0.2
    max 0.0 (min 1.0 confidence)

/-- Return value of `BaseExpert.validate_findings`. -/
structure ValidationSummary where
  validated : Bool
  confidence : ℚ
  findings_count : Nat
deriving DecidableEq

/-- BaseExpert.validate_findings (`base_expert.py`). -/
def validate_findings (findings : List Finding) : ValidationSummary :=
  { validated := true, confidence := 0.8, findings_count := findings.length }

namespace SecurityExpert

/-- The five credential regexes of `SecurityExpert.detect_hallucinations`. -/
def credentialPatterns : List Pat :=
  [.credTok "sk-" 48, .credTok "pk_" 48, .credTok "AKIA" 16,
   .credTok "ghp_" 36, .credTok "gho_" 36]

/-- The six subprocess regexes of `SecurityExpert.detect_hallucinations`. -/
def subprocessPatterns : List Pat :=
  [.litTok "import subprocess", .litTok "subprocess.run", .litTok "subprocess.Popen",
   .litTok "subprocess.call", .litTok "os.system", .litTok "os.popen"]

/-- SecurityExpert._find_line_number: scan the lines of `content` with the
counter starting at 1, return the counter at the first line the pattern
matches, 0 when no line matches. -/
def findLineAux (p : Pat) : Nat → List (List Char) → Nat
  | _, [] => 0
  | i, l :: ls => if patSearchChars p l then i else findLineAux p (i + 1) ls

def find_line_number (content : String) (p : Pat) : Nat :=
  findLineAux p 1 (splitOnChar '\n' content.data)

/-- The finding appended for a credential-pattern match. -/
def credFinding (file content : String) (p : Pat) : Finding :=
  { ftype := "security_vulnerability", file := file, patt := some p, priority := "high",
    description := "Potential hardcoded credential found: " ++ patSrc p,
    line := some (find_line_number content p) }

/-- The finding appended for a subprocess-pattern match. -/
def subFinding (file content : String) (p : Pat) : Finding :=
  { ftype := "subprocess_vulnerability", file := file, patt := some p, priority := "critical",
    description := "Subprocess usage detected: " ++ patSrc p ++
      " - Security risk for command injection",
    line := some (find_line_number content p) }

/-- Findings emitted for one scanned file: one finding per matching credential
pattern (in pattern order), then one per matching subprocess pattern. -/
def fileFindings (file content : String) : List Finding :=
  (credentialPatterns.filter (fun p => patSearch p content)).map (credFinding file content)
  ++ (subprocessPatterns.filter (fun p => patSearch p content)).map (subFinding file content)

def issue_recommendations : List String :=
  ["Use environment variables for credentials",
   "Implement secret management",
   "Replace subprocess calls with native Python operations",
   "Use Go/Rust for performance-critical shell operations",
   "Implement gRPC shell service for secure command execution"]

def clean_recommendations : List String :=
  ["No security issues detected",
   "Continue monitoring for security vulnerabilities",
   "Implement automated security scanning in CI/CD"]

/-- SecurityExpert.detect_hallucinations: scan every `*.py` file under the
root (skipping unreadable ones), then pick the recommendation list from the
presence of findings and score confidence with `calculate_confidence`. -/
def detect_hallucinations (fs : FS) : HallucinationResult :=
  let hallucinations :=
    ((fs.files.filter (fun f => strEndsWith f.path ".py")).map
      (fun f => if f.readable then fileFindings f.path f.text else [])).flatten
  let recommendations :=
    if !hallucinations.isEmpty then issue_recommendations else clean_recommendations
  { hallucinations := hallucinations,
    confidence := calculate_confidence hallucinations,
    recommendations := recommendations }

/-- One entry of the list returned by `SecurityExpert.suggest_fixes`
(`exampleStr` is the dict key `"example"`, a reserved word in Lean). -/
structure FixSuggestion where
  issue : Finding
  fix : String
  exampleStr : String
  priority : String
deriving DecidableEq

/-- The fix dict appended for a security_vulnerability issue. -/
def credFix (issue : Finding) (p : Pat) : FixSuggestion :=
  { issue := issue,
    fix := "Replace hardcoded credential with environment variable",
    exampleStr := "# Replace: " ++ patSrc p ++ "\n# With: os.getenv(\x27CREDENTIAL_KEY\x27)",
    priority := "high" }

/-- The fix dict appended for a subprocess_vulnerability issue. -/
def subFix (issue : Finding) : FixSuggestion :=
  { issue := issue,
    fix := "Replace subprocess call with native Python operation",
    exampleStr := "# Replace subprocess.call with native Python libraries",
    priority := "critical" }

/-- SecurityExpert.suggest_fixes.  Reading `issue["pattern"]` on a dict
without that key raises `KeyError`, modelled by the `Except` error case;
issues whose type matches neither branch are skipped silently. -/
def suggest_fixes : List Finding → Except String (List FixSuggestion)
  | [] => .ok []
  | issue :: rest =>
    if issue.ftype == "security_vulnerability" then
      match issue.patt with
      | none => .error "KeyError: pattern"
      | some p => do
          let tl ← suggest_fixes rest
          .ok (credFix issue p :: tl)
    else if issue.ftype == "subprocess_vulnerability" then do
      let tl ← suggest_fixes rest
      .ok (subFix issue :: tl)
    else suggest_fixes rest

/-- Per-issue weight inside `SecurityExpert.calculate_risk_score`. -/
def issueWeight (f : Finding) : ℚ :=
  if f.priority == "critical" then 10.0
  else if f.priority == "high" then 5.0
  else if f.priority == "medium" then 2.0
  else 1.0

/-- SecurityExpert.calculate_risk_score: 0.0 on empty input, otherwise the
summed weights capped at 10.0. -/
def calculate_risk_score (issues : List Finding) : ℚ :=
  if issues.isEmpty then 0.0
  else min 10.0 (issues.foldl (fun acc f => acc + issueWeight f) 0.0)

end SecurityExpert

namespace CodeQualityExpert

def tool_output_names : List String :=
  ["pyproject.toml", ".ruff.toml", "pytest.ini", "setup.cfg", ".flake8", "tox.ini",
   "coverage.xml", "htmlcov/", "logs/", ".github/workflows/", ".gitlab-ci.yml"]

def ci_dirs : List String := [".github", ".gitlab-ci", ".circleci", "ci", "jenkins"]

/-- CodeQualityExpert._find_existing_tool_outputs: well-known config paths
that exist, then any `*.yml` / `*.yaml` / `*.json` file under a CI directory. -/
def find_existing_tool_outputs (fs : FS) : List String :=
  (tool_output_names.filter (fun n => fs.pathExists (normPath n))).map normPath
  ++ (ci_dirs.map (fun d =>
        if fs.pathExists d then
          fs.rglobExt d ".yml" ++ fs.rglobExt d ".yaml" ++ fs.rglobExt d ".json"
        else [])).flatten

def flake8_candidates : List String := ["flake8_report.json", "flake8_report.txt", ".flake8"]

/-- Finding built from one entry of a parsed `flake8_report.json`. -/
def flakeJsonFinding (issue : FlakeIssue) : Finding :=
  { ftype := "code_quality_issue",
    file := issue.filename.getD "unknown",
    line := some (issue.line_number.getD 0),
    column := some (issue.column_number.getD 0),
    code := some (issue.code.getD ""),
    description := issue.text.getD "",
    priority := "medium",
    tool := some "flake8",
    source := some "existing_output" }

/-- Findings parsed from one line of a textual flake8 report
(`file:line:col:code message`). -/
def flakeTextLineFindings (line : String) : List Finding :=
  if strContains line ":" then
    let parts := strSplitOnChar ':' (strTrim line)
    if parts.length ≥ 4 then
      let p1 := parts.getD 1 ""
      let p2 := parts.getD 2 ""
      let p3 := parts.getD 3 ""
      [{ ftype := "code_quality_issue",
         file := parts.getD 0 "",
         line := some (if isPyDigits p1 then digitsToNat p1 else 0),
         column := some (if isPyDigits p2 then digitsToNat p2 else 0),
         code := some (if (pySplitWs p3).length > 0 then (pySplitWs p3).getD 0 "" else ""),
         description := strTrim (strJoinWith ":" (parts.drop 3)),
         priority := "medium",
         tool := some "flake8",
         source := some "existing_output" }]
    else []
  else []

/-- CodeQualityExpert._analyze_existing_flake8_outputs. -/
def analyze_existing_flake8_outputs (fs : FS) : List Finding :=
  (flake8_candidates.map (fun p =>
    if fs.pathExists p then
      if strEndsWith p ".json" then
        match fs.readFile? p with
        | none => []
        | some f =>
          match f.jsonList with
          | none => []
          | some data => data.map flakeJsonFinding
      else
        match fs.readFile? p with
        | none => []
        | some f => ((strSplitOnChar '\n' f.text).map flakeTextLineFindings).flatten
    else [])).flatten

def black_candidates : List String := ["black_report.txt", "pyproject.toml"]

/-- CodeQualityExpert._analyze_existing_black_outputs. -/
def analyze_existing_black_outputs (fs : FS) : List Finding :=
  (black_candidates.map (fun p =>
    if fs.pathExists p then
      match fs.readFile? p with
      | none => []
      | some f =>
        if strContains (strLower f.text) "black" then
          if strContains f.text "line-length" || strContains f.text "target-version" then
            [{ ftype := "formatting_config", file := p,
               description := "Black formatter configuration found",
               priority := "low", tool := some "black", source := some "existing_config" }]
          else []
        else []
    else [])).flatten

def mypy_candidates : List String := ["mypy_report.txt", "pyproject.toml", "setup.cfg"]

/-- CodeQualityExpert._analyze_existing_mypy_outputs. -/
def analyze_existing_mypy_outputs (fs : FS) : List Finding :=
  (mypy_candidates.map (fun p =>
    if fs.pathExists p then
      match fs.readFile? p with
      | none => []
      | some f =>
        if strContains (strLower f.text) "mypy" then
          if strContains f.text "warn_return_any" || strContains f.text "disallow_untyped_defs" then
            [{ ftype := "type_checking_config", file := p,
               description := "MyPy type checker configuration found",
               priority := "low", tool := some "mypy", source := some "existing_config" }]
          else []
        else []
    else [])).flatten

/-- CodeQualityExpert._analyze_existing_ci_logs. -/
def analyze_existing_ci_logs (fs : FS) : List Finding :=
  (ci_dirs.map (fun d =>
    if fs.pathExists d then
      ((fs.rglobExt d ".yml").map (fun cf =>
        match fs.readFile? cf with
        | none => []
        | some f =>
          if strContains f.text "flake8" || strContains f.text "black" ||
             strContains f.text "mypy" then
            [{ ftype := "ci_quality_integration", file := cf,
               description := "Quality tools integrated in CI/CD pipeline",
               priority := "low", tool := some "ci_cd", source := some "existing_config" }]
          else [])).flatten
    else [])).flatten

def bootstrap_recommendations : List String :=
  ["No existing code quality tool outputs found",
   "Consider running quality tools and saving outputs for analysis",
   "Set up CI/CD pipeline to capture tool outputs",
   "Use pre-commit hooks to generate quality reports"]

def issue_recommendations : List String :=
  ["Address code quality issues found in existing tool outputs",
   "Review and fix flake8 violations",
   "Run black formatter to fix formatting issues",
   "Add proper type annotations based on mypy findings",
   "Consider implementing pre-commit hooks for automated quality checks",
   "Set up quality gates in CI/CD pipeline"]

def clean_recommendations : List String :=
  ["Code quality checks passed based on existing tool outputs",
   "Continue monitoring with automated quality checks",
   "Consider adding more comprehensive quality analysis tools"]

/-- CodeQualityExpert.detect_hallucinations.  Note the no-data branch returns
confidence 0.5 (not the 0.3 of the other contract experts). -/
def detect_hallucinations (fs : FS) : HallucinationResult :=
  let tool_outputs := find_existing_tool_outputs fs
  if tool_outputs.isEmpty then
    { hallucinations := [], confidence := 0.5, recommendations := bootstrap_recommendations }
  else
    let hallucinations :=
      analyze_existing_flake8_outputs fs ++ analyze_existing_black_outputs fs
      ++ analyze_existing_mypy_outputs fs ++ analyze_existing_ci_logs fs
    let recommendations :=
      if !hallucinations.isEmpty then issue_recommendations else clean_recommendations
    { hallucinations := hallucinations,
      confidence := calculate_confidence hallucinations,
      recommendations := recommendations }

end CodeQualityExpert

namespace ArchitectureExpert

def doc_names : List String :=
  ["README.md", "ARCHITECTURE.md", "DESIGN.md", "docs/", "adr/", "decisions/",
   "architecture/", "design/"]

def structure_names : List String :=
  ["pyproject.toml", "setup.py", "requirements.txt", "src/", "lib/", "app/", "core/"]

/-- ArchitectureExpert._find_existing_architecture_data: documentation paths
(directories contribute their `*.md` files) then structure paths (directories
contribute their `*.py` files). -/
def find_existing_architecture_data (fs : FS) : List String :=
  (doc_names.map (fun n =>
    let p := normPath n
    if fs.pathExists p then (if fs.isDir p then fs.rglobExt p ".md" else [p]) else [])).flatten
  ++ (structure_names.map (fun n =>
    let p := normPath n
    if fs.pathExists p then (if fs.isDir p then fs.rglobExt p ".py" else [p]) else [])).flatten

/-- ArchitectureExpert._analyze_architecture_docs. -/
def analyze_architecture_docs (fs : FS) : List Finding :=
  (if fs.pathExists "README.md" then
    match fs.readFile? "README.md" with
    | none => []
    | some f =>
      if !strContains (strLower f.text) "architecture" &&
         !strContains (strLower f.text) "design" then
        [{ ftype := "documentation_issue", file := "README.md",
           description := "README missing architecture/design section",
           priority := "medium", tool := some "documentation", source := some "existing_docs" }]
      else []
   else [])
  ++ (if fs.pathExists "docs" then
        let arch_docs := fs.rglobNameContains "docs" "architecture"
          ++ fs.rglobNameContains "docs" "design"
        if arch_docs.isEmpty then
          [{ ftype := "documentation_issue", file := "docs",
             description := "Docs directory missing architecture/design documentation",
             priority := "medium", tool := some "documentation",
             source := some "existing_docs" }]
        else []
      else [])

/-- ArchitectureExpert._analyze_code_structure.  The project root rendered by
`str(project_path)` is modelled as the empty string. -/
def analyze_code_structure (fs : FS) : List Finding :=
  if fs.pathExists "src" then
    let py_files := fs.rglobExt "src" ".py"
    if !py_files.isEmpty then
      let init_files := fs.rglobName "src" "__init__.py"
      if init_files.length < (py_files.map parentDir).dedup.length then
        [{ ftype := "structure_issue", file := "src",
           description := "Some Python packages missing __init__.py files",
           priority := "medium", tool := some "code_structure",
           source := some "existing_structure" }]
      else []
    else []
  else
    let py_files := fs.rglobExt "" ".py"
    if py_files.length > 10 then
      [{ ftype := "structure_issue", file := "",
         description := "Consider organizing code into src/ directory structure",
         priority := "low", tool := some "code_structure",
         source := some "existing_structure" }]
    else []

def depIssue (p : String) : Finding :=
  { ftype := "dependency_issue", file := p,
    description := "Consider pinning dependency versions for reproducibility",
    priority := "medium", tool := some "dependency_management",
    source := some "existing_config" }

/-- ArchitectureExpert._analyze_dependencies. -/
def analyze_dependencies (fs : FS) : List Finding :=
  (if fs.pathExists "pyproject.toml" then
    match fs.readFile? "pyproject.toml" with
    | none => []
    | some f =>
      if strContains f.text "dependencies" then
        if strContains f.text ">=" && !strContains f.text "==" then
          [depIssue "pyproject.toml"]
        else []
      else []
   else [])
  ++ (if fs.pathExists "requirements.txt" then
        match fs.readFile? "requirements.txt" with
        | none => []
        | some f =>
          if strContains f.text ">=" && !strContains f.text "==" then
            [depIssue "requirements.txt"]
          else []
      else [])

def bootstrap_recommendations : List String :=
  ["No existing architecture documentation found",
   "Consider creating architecture decision records (ADRs)",
   "Document system components and their relationships",
   "Create dependency diagrams and system maps"]

def issue_recommendations : List String :=
  ["Review and improve architecture documentation",
   "Address structural issues in code organization",
   "Update dependency management and versioning",
   "Consider implementing architectural patterns",
   "Document system boundaries and interfaces"]

def clean_recommendations : List String :=
  ["Architecture appears well-documented based on existing files",
   "Continue monitoring architectural decisions",
   "Consider implementing advanced architectural patterns",
   "Add performance and scalability documentation"]

/-- ArchitectureExpert.detect_hallucinations. -/
def detect_hallucinations (fs : FS) : HallucinationResult :=
  let arch_data := find_existing_architecture_data fs
  if arch_data.isEmpty then
    { hallucinations := [], confidence := 0.3, recommendations := bootstrap_recommendations }
  else
    let hallucinations :=
      analyze_architecture_docs fs ++ analyze_code_structure fs ++ analyze_dependencies fs
    let recommendations :=
      if !hallucinations.isEmpty then issue_recommendations else clean_recommendations
    { hallucinations := hallucinations,
      confidence := calculate_confidence hallucinations,
      recommendations := recommendations }

end ArchitectureExpert

namespace BuildExpert

def config_names : List String :=
  ["pyproject.toml", "setup.py", "setup.cfg", "build.py", "Makefile", "dockerfile",
   "Dockerfile"]

def output_dirs : List String := ["build/", "dist/", "*.egg-info/", "target/"]

/-- BuildExpert._find_existing_build_data (the `*.egg-info/` entry is probed
as a literal path name, not expanded as a glob, exactly as in the source). -/
def find_existing_build_data (fs : FS) : List String :=
  config_names.filter (fun n => fs.pathExists n)
  ++ (output_dirs.filter (fun d => fs.pathExists (normPath d))).map normPath

/-- BuildExpert._analyze_build_config. -/
def analyze_build_config (fs : FS) : List Finding :=
  if fs.pathExists "pyproject.toml" then
    match fs.readFile? "pyproject.toml" with
    | none => []
    | some f =>
      if !strContains f.text "build-system" then
        [{ ftype := "build_config_issue", file := "pyproject.toml",
           description := "Missing build-system configuration",
           priority := "medium", tool := some "build_config",
           source := some "existing_config" }]
      else []
  else []

def log_names : List String := ["build.log", "make.log", "docker.log"]

/-- BuildExpert._analyze_build_logs. -/
def analyze_build_logs (fs : FS) : List Finding :=
  (log_names.map (fun n =>
    if fs.pathExists n then
      match fs.readFile? n with
      | none => []
      | some f =>
        if strContains (strLower f.text) "error" || strContains (strLower f.text) "failed" then
          [{ ftype := "build_failure", file := n,
             description := "Build log contains error or failure messages",
             priority := "high", tool := some "build_logs", source := some "existing_logs" }]
        else []
    else [])).flatten

def bootstrap_recommendations : List String :=
  ["No existing build configuration found",
   "Consider setting up proper build tools (poetry, pip, etc.)",
   "Implement automated build pipelines",
   "Set up build artifact management"]

def issue_recommendations : List String :=
  ["Review and fix build configuration issues",
   "Address build failures identified in logs",
   "Improve build automation and pipelines",
   "Consider implementing build caching strategies"]

def clean_recommendations : List String :=
  ["Build configuration appears sound based on existing files",
   "Continue monitoring build performance",
   "Consider implementing advanced build strategies",
   "Add build metrics and monitoring"]

/-- BuildExpert.detect_hallucinations. -/
def detect_hallucinations (fs : FS) : HallucinationResult :=
  let build_data := find_existing_build_data fs
  if build_data.isEmpty then
    { hallucinations := [], confidence := 0.3, recommendations := bootstrap_recommendations }
  else
    let hallucinations := analyze_build_config fs ++ analyze_build_logs fs
    let recommendations :=
      if !hallucinations.isEmpty then issue_recommendations else clean_recommendations
    { hallucinations := hallucinations,
      confidence := calculate_confidence hallucinations,
      recommendations := recommendations }

end BuildExpert

namespace MCPExpert

def config_names : List String :=
  ["mcp_config.json", "mcp.yaml", "mcp.toml", ".mcp", "mcp_server.json", "mcp_client.json"]

def log_dirs : List String := ["logs/", "mcp_logs/", ".mcp_logs/"]

/-- MCPExpert._find_existing_mcp_data. -/
def find_existing_mcp_data (fs : FS) : List String :=
  config_names.filter (fun n => fs.pathExists n)
  ++ (log_dirs.filter (fun d => fs.pathExists (normPath d))).map normPath

def checked_configs : List String := ["mcp_config.json", "mcp.yaml"]

/-- MCPExpert._analyze_mcp_config. -/
def analyze_mcp_config (fs : FS) : List Finding :=
  (checked_configs.map (fun p =>
    if fs.pathExists p then
      match fs.readFile? p with
      | none => []
      | some f =>
        if strContains (strLower f.text) "mcp" then
          if !strContains f.text "server" && !strContains f.text "client" then
            [{ ftype := "mcp_config_issue", file := p,
               description := "MCP configuration missing server/client specification",
               priority := "medium", tool := some "mcp_config",
               source := some "existing_config" }]
          else []
        else []
    else [])).flatten

def log_names : List String := ["mcp.log", "mcp_server.log", "mcp_client.log"]

/-- MCPExpert._analyze_mcp_logs. -/
def analyze_mcp_logs (fs : FS) : List Finding :=
  (log_names.map (fun n =>
    if fs.pathExists n then
      match fs.readFile? n with
      | none => []
      | some f =>
        if strContains (strLower f.text) "error" || strContains (strLower f.text) "failed" then
          [{ ftype := "mcp_failure", file := n,
             description := "MCP log contains error or failure messages",
             priority := "high", tool := some "mcp_logs", source := some "existing_logs" }]
        else []
    else [])).flatten

def bootstrap_recommendations : List String :=
  ["No existing MCP configuration found",
   "Consider setting up MCP server configuration",
   "Implement MCP client integration",
   "Set up MCP logging and monitoring"]

def issue_recommendations : List String :=
  ["Review and fix MCP configuration issues",
   "Address MCP connection issues identified in logs",
   "Improve MCP error handling and logging",
   "Consider implementing MCP health checks"]

def clean_recommendations : List String :=
  ["MCP configuration appears sound based on existing files",
   "Continue monitoring MCP performance",
   "Consider implementing advanced MCP strategies",
   "Add comprehensive MCP monitoring and alerting"]

/-- MCPExpert.detect_hallucinations. -/
def detect_hallucinations (fs : FS) : HallucinationResult :=
  let mcp_data := find_existing_mcp_data fs
  if mcp_data.isEmpty then
    { hallucinations := [], confidence := 0.3, recommendations := bootstrap_recommendations }
  else
    let hallucinations := analyze_mcp_config fs ++ analyze_mcp_logs fs
    let recommendations :=
      if !hallucinations.isEmpty then issue_recommendations else clean_recommendations
    { hallucinations := hallucinations,
      confidence := calculate_confidence hallucinations,
      recommendations := recommendations }

end MCPExpert

namespace ModelExpert

def config_names : List String :=
  ["model_config.json", "model.yaml", "config.yaml", "hyperparameters.json",
   "model_params.json"]

def output_dirs : List String := ["models/", "checkpoints/", "outputs/", "results/"]

/-- ModelExpert._find_existing_model_data. -/
def find_existing_model_data (fs : FS) : List String :=
  config_names.filter (fun n => fs.pathExists n)
  ++ (output_dirs.filter (fun d => fs.pathExists (normPath d))).map normPath

def checked_configs : List String := ["model_config.json", "config.yaml"]

/-- ModelExpert._analyze_model_config. -/
def analyze_model_config (fs : FS) : List Finding :=
  (checked_configs.map (fun p =>
    if fs.pathExists p then
      match fs.readFile? p with
      | none => []
      | some f =>
        if strContains (strLower f.text) "model" then
          if !strContains f.text "version" then
            [{ ftype := "model_config_issue", file := p,
               description := "Model configuration missing version information",
               priority := "medium", tool := some "model_config",
               source := some "existing_config" }]
          else []
        else []
    else [])).flatten

def log_names : List String := ["model.log", "training.log", "evaluation.log"]

/-- ModelExpert._analyze_model_outputs. -/
def analyze_model_outputs (fs : FS) : List Finding :=
  (log_names.map (fun n =>
    if fs.pathExists n then
      match fs.readFile? n with
      | none => []
      | some f =>
        if strContains (strLower f.text) "error" || strContains (strLower f.text) "failed" then
          [{ ftype := "model_failure", file := n,
             description := "Model log contains error or failure messages",
             priority := "high", tool := some "model_logs", source := some "existing_logs" }]
        else []
    else [])).flatten

def bootstrap_recommendations : List String :=
  ["No existing model configuration found",
   "Consider documenting model architecture and parameters",
   "Implement model versioning and tracking",
   "Set up model performance monitoring"]

def issue_recommendations : List String :=
  ["Review and fix model configuration issues",
   "Address model performance issues identified in outputs",
   "Improve model documentation and versioning",
   "Consider implementing model monitoring and alerting"]

def clean_recommendations : List String :=
  ["Model configuration appears sound based on existing files",
   "Continue monitoring model performance",
   "Consider implementing advanced model strategies",
   "Add comprehensive model evaluation metrics"]

/-- ModelExpert.detect_hallucinations. -/
def detect_hallucinations (fs : FS) : HallucinationResult :=
  let model_data := find_existing_model_data fs
  if model_data.isEmpty then
    { hallucinations := [], confidence := 0.3, recommendations := bootstrap_recommendations }
  else
    let hallucinations := analyze_model_config fs ++ analyze_model_outputs fs
    let recommendations :=
      if !hallucinations.isEmpty then issue_recommendations else clean_recommendations
    { hallucinations := hallucinations,
      confidence := calculate_confidence hallucinations,
      recommendations := recommendations }

end ModelExpert

/-!
Specification-side definitions, written from the wording of the spec and used
to compare against the code-derived definitions above.
-/

/-- Index (0-based) of the first element of `ls` the pattern matches, written
directly from the wording of the spec (first line that matches that specific
pattern). -/
def firstMatchIdx (p : Pat) : List (List Char) → Option Nat
  | [] => none
  | l :: ls => if patSearchChars p l then some 0 else (firstMatchIdx p ls).map (· + 1)

/-- Spec notion for line localization: the 1-based index of the first line of
the content that matches that specific pattern, and 0 when no line matches. -/
def firstMatchingLine (content : String) (p : Pat) : Nat :=
  match firstMatchIdx p (splitOnChar '\n' content.data) with
  | some i => i + 1
  | none => 0

/-- Predicate for the finding kinds `SecurityExpert.suggest_fixes` knows. -/
def knownSecKind (f : Finding) : Bool :=
  f.ftype == "security_vulnerability" || f.ftype == "subprocess_vulnerability"

/-!
Concrete sample data used by witnesses and counterexamples.
-/

/-- Minimal finding with a given priority (the fields the scorers never read
are filled with fixed placeholder values). -/
def mkF (pr : String) : Finding :=
  { ftype := "sample", file := "f.py", priority := pr, description := "sample" }

def sampleText : String := "x = 1\nimport subprocess\n"

def sampleFS : FS := ⟨[{ path := "app.py", text := sampleText }]⟩

def sampleSubFinding : Finding :=
  SecurityExpert.subFinding "app.py" sampleText (Pat.litTok "import subprocess")

def sampleCredFinding : Finding :=
  { ftype := "security_vulnerability", file := "cfg.py", priority := "high",
    description := "sample", patt := some (Pat.credTok "sk-" 48), line := some 1 }

/-!
Helper lemmas about the scorers.
-/

theorem conf_eq_of_ne_nil (l : List Finding) (hne : l ≠ []) :
    calculate_confidence l =
      max 0.0 (min 1.0 (0.8 - ((l.countP (fun f => f.priority == "high") : ℚ)) * 0.1
                            - ((l.countP (fun f => f.priority == "critical") : ℚ)) * 0.2)) := by
  have h : l.isEmpty = false := by
    cases l with
    | nil => exact absurd rfl hne
    | cons a t => rfl
  simp [calculate_confidence, h, List.countP_eq_length_filter]

theorem conf_le_of_ne_nil (l : List Finding) (hne : l ≠ []) :
    calculate_confidence l ≤ 0.9 := by
  rw [conf_eq_of_ne_nil l hne]
  have h1 : (0 : ℚ) ≤ (l.countP (fun f => f.priority == "high") : ℚ) := Nat.cast_nonneg _
  have h2 : (0 : ℚ) ≤ (l.countP (fun f => f.priority == "critical") : ℚ) := Nat.cast_nonneg _
  refine max_le (by norm_num) (le_trans (min_le_right _ _) ?_)
  nlinarith

theorem foldl_weight (l : List Finding) : ∀ a : ℚ,
    l.foldl (fun acc f => acc + SecurityExpert.issueWeight f) a
      = a + (l.map SecurityExpert.issueWeight).sum := by
  induction l with
  | nil => intro a; simp
  | cons f t ih => intro a; simp [ih, add_assoc]

/-!
Claim theorems.
-/

/-- C2: the confidence function returns 0.9 for an empty findings list; for a
non-empty list it returns 0.8 minus 0.1 per high-priority finding minus 0.2
per critical-priority finding (clamped), low/medium findings having no
effect; one high gives 0.7, one critical 0.6, two criticals 0.4, five
criticals 0.0. -/
theorem claim_C2 :
    calculate_confidence [] = 0.9 ∧
    (∀ l : List Finding, l ≠ [] →
      calculate_confidence l =
        max 0.0 (min 1.0 (0.8 - ((l.countP (fun f => f.priority == "high") : ℚ)) * 0.1
                              - ((l.countP (fun f => f.priority == "critical") : ℚ)) * 0.2))) ∧
    (∀ (l : List Finding) (f : Finding), l ≠ [] →
      (f.priority = "low" ∨ f.priority = "medium") →
      calculate_confidence (f :: l) = calculate_confidence l) ∧
    calculate_confidence [mkF "high"] = 0.7 ∧
    calculate_confidence [mkF "critical"] = 0.6 ∧
    calculate_confidence [mkF "critical", mkF "critical"] = 0.4 ∧
    calculate_confidence (List.replicate 5 (mkF "critical")) = 0.0 := by
  refine ⟨rfl, conf_eq_of_ne_nil, ?_, ?_, ?_, ?_, ?_⟩
  · intro l f hne hf
    rw [conf_eq_of_ne_nil _ (List.cons_ne_nil f l), conf_eq_of_ne_nil l hne,
        List.countP_cons, List.countP_cons]
    rcases hf with hf | hf <;> simp [hf]
  · rw [conf_eq_of_ne_nil _ (by simp),
        show List.countP (fun f => f.priority == "high") [mkF "high"] = 1 from rfl,
        show List.countP (fun f => f.priority == "critical") [mkF "high"] = 0 from rfl]
    norm_num
  · rw [conf_eq_of_ne_nil _ (by simp),
        show List.countP (fun f => f.priority == "high") [mkF "critical"] = 0 from rfl,
        show List.countP (fun f => f.priority == "critical") [mkF "critical"] = 1 from rfl]
    norm_num
  · rw [conf_eq_of_ne_nil _ (by simp),
        show List.countP (fun f => f.priority == "high") [mkF "critical", mkF "critical"] = 0
          from rfl,
        show List.countP (fun f => f.priority == "critical") [mkF "critical", mkF "critical"] = 2
          from rfl]
    norm_num
  · rw [conf_eq_of_ne_nil _ (by simp),
        show List.countP (fun f => f.priority == "high") (List.replicate 5 (mkF "critical")) = 0
          from rfl,
        show List.countP (fun f => f.priority == "critical") (List.replicate 5 (mkF "critical"))
            = 5 from rfl]
    norm_num

/-- C2 witness: adding a low-priority finding to a non-empty list leaves the
confidence unchanged. -/
theorem claim_C2_witness :
    calculate_confidence [mkF "low", mkF "high"] = calculate_confidence [mkF "high"] :=
  claim_C2.2.2.1 [mkF "high"] (mkF "low") (by decide) (Or.inl rfl)

/-- C3: the risk score is 0.0 on an empty list and otherwise the sum of the
per-finding weights (critical 10, high 5, medium 2, any other 1) capped at
10.0; one critical plus one high gives 10.0 and one medium gives 2.0. -/
theorem claim_C3 :
    SecurityExpert.calculate_risk_score [] = 0.0 ∧
    (∀ l : List Finding, l ≠ [] →
      SecurityExpert.calculate_risk_score l
        = min 10.0 ((l.map SecurityExpert.issueWeight).sum)) ∧
    (∀ f : Finding, f.priority ≠ "critical" → f.priority ≠ "high" → f.priority ≠ "medium" →
      SecurityExpert.issueWeight f = 1.0) ∧
    (∀ l : List Finding, SecurityExpert.calculate_risk_score l ≤ 10.0) ∧
    SecurityExpert.calculate_risk_score [mkF "critical", mkF "high"] = 10.0 ∧
    SecurityExpert.calculate_risk_score [mkF "medium"] = 2.0 := by
  have key : ∀ l : List Finding, l ≠ [] →
      SecurityExpert.calculate_risk_score l
        = min 10.0 ((l.map SecurityExpert.issueWeight).sum) := by
    intro l hne
    have h : l.isEmpty = false := by
      cases l with
      | nil => exact absurd rfl hne
      | cons a t => rfl
    simp [SecurityExpert.calculate_risk_score, h, foldl_weight]
    norm_num
  refine ⟨rfl, key, ?_, ?_, ?_, ?_⟩
  · intro f h1 h2 h3
    simp [SecurityExpert.issueWeight, beq_iff_eq, h1, h2, h3]
  · intro l
    rcases eq_or_ne l [] with rfl | hne
    · norm_num [SecurityExpert.calculate_risk_score]
    · rw [key l hne]; exact min_le_left _ _
  · rw [key _ (by simp),
        show [mkF "critical", mkF "high"].map SecurityExpert.issueWeight = [10.0, 5.0] from rfl]
    simp only [List.sum_cons, List.sum_nil]
    norm_num
  · rw [key _ (by simp),
        show [mkF "medium"].map SecurityExpert.issueWeight = [2.0] from rfl]
    simp only [List.sum_cons, List.sum_nil]
    norm_num

/-- C3 witness: the non-empty clause at a concrete one-element list. -/
theorem claim_C3_witness :
    SecurityExpert.calculate_risk_score [mkF "medium"]
      = min 10.0 (([mkF "medium"].map SecurityExpert.issueWeight).sum) :=
  claim_C3.2.1 [mkF "medium"] (by decide)

/-- C8: the confidence result always lies in [0, 1], and adding a high- or
critical-priority finding to any list never increases the confidence. -/
theorem claim_C8 :
    (∀ l : List Finding, 0 ≤ calculate_confidence l ∧ calculate_confidence l ≤ 1) ∧
    (∀ (l : List Finding) (f : Finding),
      f.priority = "high" ∨ f.priority = "critical" →
      calculate_confidence (f :: l) ≤ calculate_confidence l) := by
  constructor
  · intro l
    rcases eq_or_ne l [] with rfl | hne
    · constructor <;> norm_num [calculate_confidence]
    · rw [conf_eq_of_ne_nil l hne]
      constructor
      · exact le_trans (by norm_num) (le_max_left _ _)
      · exact max_le (by norm_num) (le_trans (min_le_left _ _) (by norm_num))
  · intro l f hf
    rcases eq_or_ne l [] with rfl | hne
    · have h09 : calculate_confidence ([] : List Finding) = 0.9 := rfl
      rw [h09]
      exact conf_le_of_ne_nil [f] (by simp)
    · rw [conf_eq_of_ne_nil _ (List.cons_ne_nil f l), conf_eq_of_ne_nil l hne]
      refine max_le_max le_rfl (min_le_min le_rfl ?_)
      rw [List.countP_cons, List.countP_cons]
      have h1 : (0 : ℚ) ≤ (l.countP (fun g => g.priority == "high") : ℚ) := Nat.cast_nonneg _
      have h2 : (0 : ℚ) ≤ (l.countP (fun g => g.priority == "critical") : ℚ) := Nat.cast_nonneg _
      rcases hf with hf | hf <;> simp [hf] <;> nlinarith

/-- C8 witness: one application of the monotonicity clause. -/
theorem claim_C8_witness :
    calculate_confidence [mkF "critical", mkF "high"] ≤ calculate_confidence [mkF "high"] :=
  claim_C8.2 [mkF "high"] (mkF "critical") (Or.inr rfl)

/-- C10: validate_findings always returns validated = true, confidence = 0.8
and the length of its input, inspecting nothing but the length. -/
theorem claim_C10 :
    (∀ l : List Finding,
      validate_findings l
        = { validated := true, confidence := 0.8, findings_count := l.length }) ∧
    (∀ l l' : List Finding, l.length = l'.length →
      validate_findings l = validate_findings l') := by
  refine ⟨fun l => rfl, fun l l' h => ?_⟩
  simp [validate_findings, h]

/-- C10 witness: two different one-element lists validate identically. -/
theorem claim_C10_witness :
    validate_findings [mkF "high"] = validate_findings [mkF "low"] :=
  claim_C10.2 [mkF "high"] [mkF "low"] rfl

/-- C1 (amended): when an expert finds no relevant artifacts for its domain,
Architecture, Build, MCP and Model return empty findings, confidence exactly
0.3 and their fixed non-empty bootstrap recommendation list; CodeQuality
returns the same shape but with confidence 0.5; Security has no dedicated
branch and a scan with zero relevant files yields empty findings, confidence
0.9 and its fixed non-empty no-issue recommendation list. -/
theorem claim_C1 (fs : FS) :
    (ArchitectureExpert.find_existing_architecture_data fs = [] →
      ArchitectureExpert.detect_hallucinations fs
        = ⟨[], 0.3, ArchitectureExpert.bootstrap_recommendations⟩) ∧
    (BuildExpert.find_existing_build_data fs = [] →
      BuildExpert.detect_hallucinations fs
        = ⟨[], 0.3, BuildExpert.bootstrap_recommendations⟩) ∧
    (MCPExpert.find_existing_mcp_data fs = [] →
      MCPExpert.detect_hallucinations fs
        = ⟨[], 0.3, MCPExpert.bootstrap_recommendations⟩) ∧
    (ModelExpert.find_existing_model_data fs = [] →
      ModelExpert.detect_hallucinations fs
        = ⟨[], 0.3, ModelExpert.bootstrap_recommendations⟩) ∧
    (CodeQualityExpert.find_existing_tool_outputs fs = [] →
      CodeQualityExpert.detect_hallucinations fs
        = ⟨[], 0.5, CodeQualityExpert.bootstrap_recommendations⟩) ∧
    (fs.files.filter (fun f => strEndsWith f.path ".py") = [] →
      SecurityExpert.detect_hallucinations fs
        = ⟨[], 0.9, SecurityExpert.clean_recommendations⟩) ∧
    ArchitectureExpert.bootstrap_recommendations ≠ [] ∧
    BuildExpert.bootstrap_recommendations ≠ [] ∧
    MCPExpert.bootstrap_recommendations ≠ [] ∧
    ModelExpert.bootstrap_recommendations ≠ [] ∧
    CodeQualityExpert.bootstrap_recommendations ≠ [] ∧
    SecurityExpert.clean_recommendations ≠ [] := by
  refine ⟨?_, ?_, ?_, ?_, ?_, ?_, by decide, by decide, by decide, by decide, by decide,
    by decide⟩
  · intro h; simp [ArchitectureExpert.detect_hallucinations, h]
  · intro h; simp [BuildExpert.detect_hallucinations, h]
  · intro h; simp [MCPExpert.detect_hallucinations, h]
  · intro h; simp [ModelExpert.detect_hallucinations, h]
  · intro h; simp [CodeQualityExpert.detect_hallucinations, h]
  · intro h
    simp [SecurityExpert.detect_hallucinations, h, calculate_confidence]

/-- C1 counterexample to the claim as stated: the CodeQuality expert is an
expert variant, a project root with zero relevant artifacts for its domain
yields empty findings but confidence 0.5, not 0.3. -/
theorem claim_C1_cex :
    CodeQualityExpert.find_existing_tool_outputs emptyFS = [] ∧
    (CodeQualityExpert.detect_hallucinations emptyFS).hallucinations = [] ∧
    (CodeQualityExpert.detect_hallucinations emptyFS).confidence = 0.5 ∧
    (CodeQualityExpert.detect_hallucinations emptyFS).confidence ≠ 0.3 := by
  refine ⟨by decide, rfl, rfl, ?_⟩
  rw [show (CodeQualityExpert.detect_hallucinations emptyFS).confidence = 0.5 from rfl]
  norm_num

/-- C1 witness: the Architecture clause applied to the empty filesystem. -/
theorem claim_C1_witness :
    ArchitectureExpert.detect_hallucinations emptyFS
      = ⟨[], 0.3, ArchitectureExpert.bootstrap_recommendations⟩ :=
  (claim_C1 emptyFS).1 (by decide)

/-- C4 (amended): detect on a project root that does not exist (modelled as
the filesystem with no files: every existence probe is false and every glob
is empty) returns normally and behaves exactly like the no-relevant-artifacts
branch of each expert: empty findings with confidence 0.3 for Architecture,
Build, MCP and Model, 0.5 for CodeQuality, and 0.9 for Security. -/
theorem claim_C4 :
    ArchitectureExpert.detect_hallucinations emptyFS
      = ⟨[], 0.3, ArchitectureExpert.bootstrap_recommendations⟩ ∧
    BuildExpert.detect_hallucinations emptyFS
      = ⟨[], 0.3, BuildExpert.bootstrap_recommendations⟩ ∧
    MCPExpert.detect_hallucinations emptyFS
      = ⟨[], 0.3, MCPExpert.bootstrap_recommendations⟩ ∧
    ModelExpert.detect_hallucinations emptyFS
      = ⟨[], 0.3, ModelExpert.bootstrap_recommendations⟩ ∧
    CodeQualityExpert.detect_hallucinations emptyFS
      = ⟨[], 0.5, CodeQualityExpert.bootstrap_recommendations⟩ ∧
    SecurityExpert.detect_hallucinations emptyFS
      = ⟨[], 0.9, SecurityExpert.clean_recommendations⟩ :=
  ⟨rfl, rfl, rfl, rfl, rfl, rfl⟩

/-- C4 counterexample to the claim as stated: on a non-existent project root
the Security expert returns confidence 0.9, not 0.3. -/
theorem claim_C4_cex :
    (SecurityExpert.detect_hallucinations emptyFS).hallucinations = [] ∧
    (SecurityExpert.detect_hallucinations emptyFS).confidence = 0.9 ∧
    (SecurityExpert.detect_hallucinations emptyFS).confidence ≠ 0.3 := by
  refine ⟨rfl, rfl, ?_⟩
  rw [show (SecurityExpert.detect_hallucinations emptyFS).confidence = 0.9 from rfl]
  norm_num

theorem findLineAux_eq (p : Pat) : ∀ (ls : List (List Char)) (k : Nat),
    SecurityExpert.findLineAux p k ls = match firstMatchIdx p ls with
      | some i => k + i
      | none => 0 := by
  intro ls
  induction ls with
  | nil => intro k; rfl
  | cons l t ih =>
    intro k
    by_cases hl : patSearchChars p l
    · simp [SecurityExpert.findLineAux, firstMatchIdx, hl]
    · rw [show SecurityExpert.findLineAux p k (l :: t)
              = SecurityExpert.findLineAux p (k + 1) t by
            simp [SecurityExpert.findLineAux, hl],
          show firstMatchIdx p (l :: t) = (firstMatchIdx p t).map (· + 1) by
            simp [firstMatchIdx, hl],
          ih (k + 1)]
      cases h : firstMatchIdx p t with
      | none => rfl
      | some i => simp [Nat.add_assoc, Nat.add_comm 1 i]

theorem find_line_number_eq (content : String) (p : Pat) :
    SecurityExpert.find_line_number content p = firstMatchingLine content p := by
  unfold SecurityExpert.find_line_number firstMatchingLine
  rw [findLineAux_eq]
  cases h : firstMatchIdx p (splitOnChar '\n' content.data) with
  | none => rfl
  | some i => simp [Nat.add_comm]

theorem firstMatchIdx_none_iff (p : Pat) : ∀ ls : List (List Char),
    firstMatchIdx p ls = none ↔ ∀ l ∈ ls, patSearchChars p l = false := by
  intro ls
  induction ls with
  | nil => simp [firstMatchIdx]
  | cons l t ih =>
    by_cases hl : patSearchChars p l <;> simp [firstMatchIdx, hl, ih]

theorem firstMatchIdx_some (p : Pat) : ∀ (ls : List (List Char)) (i : Nat),
    firstMatchIdx p ls = some i →
    ∃ l, ls.get? i = some l ∧ patSearchChars p l = true ∧
      ∀ j, j < i → ∀ l', ls.get? j = some l' → patSearchChars p l' = false := by
  intro ls
  induction ls with
  | nil => intro i h; simp [firstMatchIdx] at h
  | cons l t ih =>
    intro i h
    by_cases hl : patSearchChars p l
    · simp [firstMatchIdx, hl] at h
      subst h
      exact ⟨l, rfl, hl, fun j hj _ _ => absurd hj (Nat.not_lt_zero j)⟩
    · simp [firstMatchIdx, hl] at h
      rcases h with ⟨i', hi', rfl⟩
      rcases ih i' hi' with ⟨l', hget, hmatch, hbefore⟩
      refine ⟨l', hget, hmatch, ?_⟩
      intro j hj l'' hget''
      cases j with
      | zero =>
        simp at hget''
        subst hget''
        simpa using hl
      | succ j' =>
        exact hbefore j' (Nat.lt_of_succ_lt_succ hj) l'' hget''

theorem mem_fileFindings {file content : String} {f : Finding}
    (h : f ∈ SecurityExpert.fileFindings file content) :
    (∃ p, p ∈ SecurityExpert.credentialPatterns ∧ patSearch p content = true ∧
       f = SecurityExpert.credFinding file content p) ∨
    (∃ p, p ∈ SecurityExpert.subprocessPatterns ∧ patSearch p content = true ∧
       f = SecurityExpert.subFinding file content p) := by
  rw [SecurityExpert.fileFindings, List.mem_append] at h
  rcases h with h | h <;>
    [left; right] <;>
    · rw [List.mem_map] at h
      rcases h with ⟨p, hp, rfl⟩
      rw [List.mem_filter] at hp
      exact ⟨p, hp.1, hp.2, rfl⟩

/-- C5: the line field of every emitted security finding is the value of the
line scanner on that file content and pattern, the scanner agrees with the
1-based index of the first matching line as the spec words it, a result of 0
means no single line matches, and a result of i+1 means line i+1 matches
while no earlier line does. -/
theorem claim_C5 :
    (∀ (content : String) (p : Pat),
      SecurityExpert.find_line_number content p = firstMatchingLine content p) ∧
    (∀ (file content : String) (f : Finding) (p : Pat),
      f ∈ SecurityExpert.fileFindings file content → f.patt = some p →
      f.line = some (SecurityExpert.find_line_number content p)) ∧
    (∀ (content : String) (p : Pat),
      firstMatchingLine content p = 0 ↔
        ∀ l ∈ splitOnChar '\n' content.data, patSearchChars p l = false) ∧
    (∀ (content : String) (p : Pat) (i : Nat),
      firstMatchingLine content p = i + 1 →
      ∃ l, (splitOnChar '\n' content.data).get? i = some l ∧ patSearchChars p l = true ∧
        ∀ j, j < i → ∀ l', (splitOnChar '\n' content.data).get? j = some l' →
          patSearchChars p l' = false) := by
  refine ⟨find_line_number_eq, ?_, ?_, ?_⟩
  · intro file content f p hmem hpatt
    rcases mem_fileFindings hmem with ⟨q, _, _, hf⟩ | ⟨q, _, _, hf⟩ <;> subst hf
    · have hq : q = p := Option.some.inj hpatt
      subst hq
      rfl
    · have hq : q = p := Option.some.inj hpatt
      subst hq
      rfl
  · intro content p
    rw [firstMatchingLine]
    cases h : firstMatchIdx p (splitOnChar '\n' content.data) with
    | none => simpa using (firstMatchIdx_none_iff p _).mp h
    | some i =>
      simp only []
      constructor
      · intro hz; exact absurd hz (Nat.succ_ne_zero i)
      · intro hall
        have := (firstMatchIdx_none_iff p _).mpr hall
        rw [h] at this
        exact absurd this (Option.some_ne_none i)
  · intro content p i h
    rw [firstMatchingLine] at h
    cases hidx : firstMatchIdx p (splitOnChar '\n' content.data) with
    | none => rw [hidx] at h; exact absurd h (by simp)
    | some i' =>
      rw [hidx] at h
      have h' : i' + 1 = i + 1 := h
      have hii : i' = i := by omega
      subst hii
      exact firstMatchIdx_some p _ i' hidx

/-- C5 witness: the subprocess finding emitted for the sample content carries
the scanner line number for its pattern (line 2 of the sample). -/
theorem claim_C5_witness :
    sampleSubFinding.line
      = some (SecurityExpert.find_line_number sampleText (Pat.litTok "import subprocess")) :=
  claim_C5.2.1 "app.py" sampleText sampleSubFinding (Pat.litTok "import subprocess")
    (by decide) rfl

/-- C9: every finding the Security expert ever emits is a credential finding
(type security_vulnerability, priority high, pattern from the credential
family) or a subprocess finding (type subprocess_vulnerability, priority
critical, pattern from the subprocess family), so its risk-score weight is
exactly 5.0 or 10.0. -/
theorem claim_C9 : ∀ (fs : FS) (f : Finding),
    f ∈ (SecurityExpert.detect_hallucinations fs).hallucinations →
    ((f.ftype = "security_vulnerability" ∧ f.priority = "high" ∧
        ∃ p, p ∈ SecurityExpert.credentialPatterns ∧ f.patt = some p) ∨
     (f.ftype = "subprocess_vulnerability" ∧ f.priority = "critical" ∧
        ∃ p, p ∈ SecurityExpert.subprocessPatterns ∧ f.patt = some p)) ∧
    (SecurityExpert.issueWeight f = 5.0 ∨ SecurityExpert.issueWeight f = 10.0) := by
  intro fs f hmem
  rw [SecurityExpert.detect_hallucinations] at hmem
  simp only [List.mem_flatten, List.mem_map] at hmem
  rcases hmem with ⟨l, ⟨g, _, hl⟩, hf⟩
  rw [← hl] at hf
  by_cases hr : g.readable
  · rw [if_pos hr] at hf
    rcases mem_fileFindings hf with ⟨p, hp, _, rfl⟩ | ⟨p, hp, _, rfl⟩
    · exact ⟨Or.inl ⟨rfl, rfl, p, hp, rfl⟩, Or.inl rfl⟩
    · exact ⟨Or.inr ⟨rfl, rfl, p, hp, rfl⟩, Or.inr rfl⟩
  · rw [if_neg hr] at hf
    exact absurd hf (List.not_mem_nil f)

/-- C9 witness: the sample scan emits the subprocess finding and the theorem
applies to it. -/
theorem claim_C9_witness :
    ((sampleSubFinding.ftype = "security_vulnerability" ∧
        sampleSubFinding.priority = "high" ∧
        ∃ p, p ∈ SecurityExpert.credentialPatterns ∧ sampleSubFinding.patt = some p) ∨
     (sampleSubFinding.ftype = "subprocess_vulnerability" ∧
        sampleSubFinding.priority = "critical" ∧
        ∃ p, p ∈ SecurityExpert.subprocessPatterns ∧ sampleSubFinding.patt = some p)) ∧
    (SecurityExpert.issueWeight sampleSubFinding = 5.0 ∨
     SecurityExpert.issueWeight sampleSubFinding = 10.0) :=
  claim_C9 sampleFS sampleSubFinding (by decide)

theorem count_filter_map_mk (mk : Pat → Finding) (hmk : ∀ x, (mk x).patt = some x)
    (q : Pat → Bool) (p : Pat) :
    ∀ l : List Pat, l.Nodup →
      (((l.filter q).map mk).filter (fun f => decide (f.patt = some p))).length
        = if p ∈ l ∧ q p = true then 1 else 0 := by
  intro l
  induction l with
  | nil => intro h; simp
  | cons a t ih =>
    intro hnd
    rw [List.nodup_cons] at hnd
    rw [List.filter_cons]
    by_cases hqa : q a = true
    · rw [if_pos hqa, List.map_cons, List.filter_cons]
      by_cases hap : a = p
      · subst hap
        rw [if_pos (by simp [hmk a]), List.length_cons, ih hnd.2]
        rw [if_neg (by simp [hnd.1]), if_pos ⟨List.mem_cons_self a t, hqa⟩]
      · rw [if_neg (by simp [hmk a, hap]), ih hnd.2]
        by_cases hpt : p ∈ t ∧ q p = true
        · rw [if_pos hpt, if_pos ⟨List.mem_cons_of_mem a hpt.1, hpt.2⟩]
        · rw [if_neg hpt, if_neg (by
            intro hcon
            rcases hcon with ⟨hmem, hq⟩
            rcases List.mem_cons.mp hmem with h | h
            · exact hap h.symm
            · exact hpt ⟨h, hq⟩)]
    · rw [if_neg hqa, ih hnd.2]
      by_cases hap : a = p
      · subst hap
        rw [if_neg (by intro hcon; exact hnd.1 hcon.1),
            if_neg (by intro hcon; exact hqa hcon.2)]
      · by_cases hpt : p ∈ t ∧ q p = true
        · rw [if_pos hpt, if_pos ⟨List.mem_cons_of_mem a hpt.1, hpt.2⟩]
        · rw [if_neg hpt, if_neg (by
            intro hcon
            rcases hcon with ⟨hmem, hq⟩
            rcases List.mem_cons.mp hmem with h | h
            · exact hap h.symm
            · exact hpt ⟨h, hq⟩)]

theorem cred_sub_disjoint :
    ∀ p ∈ SecurityExpert.credentialPatterns, p ∉ SecurityExpert.subprocessPatterns := by
  decide

theorem credentialPatterns_nodup : SecurityExpert.credentialPatterns.Nodup := by decide

theorem subprocessPatterns_nodup : SecurityExpert.subprocessPatterns.Nodup := by decide

/-- C6: for every scanned file content and every pattern of the credential
family, the per-file detector emits exactly one finding carrying that pattern
when the content matches it and none otherwise, and any finding carrying a
credential pattern has type security_vulnerability and priority high; the
same holds for the subprocess family with type subprocess_vulnerability and
priority critical. -/
theorem claim_C6 : ∀ (file content : String) (p : Pat),
    (p ∈ SecurityExpert.credentialPatterns →
      (((SecurityExpert.fileFindings file content).filter
          (fun f => decide (f.patt = some p))).length
        = if patSearch p content then 1 else 0) ∧
      ∀ f ∈ SecurityExpert.fileFindings file content, f.patt = some p →
        f.ftype = "security_vulnerability" ∧ f.priority = "high") ∧
    (p ∈ SecurityExpert.subprocessPatterns →
      (((SecurityExpert.fileFindings file content).filter
          (fun f => decide (f.patt = some p))).length
        = if patSearch p content then 1 else 0) ∧
      ∀ f ∈ SecurityExpert.fileFindings file content, f.patt = some p →
        f.ftype = "subprocess_vulnerability" ∧ f.priority = "critical") := by
  intro file content p
  have hcount : ((SecurityExpert.fileFindings file content).filter
        (fun f => decide (f.patt = some p))).length
      = (if p ∈ SecurityExpert.credentialPatterns ∧ patSearch p content = true then 1 else 0)
        + (if p ∈ SecurityExpert.subprocessPatterns ∧ patSearch p content = true
           then 1 else 0) := by
    rw [SecurityExpert.fileFindings, List.filter_append, List.length_append,
        count_filter_map_mk (SecurityExpert.credFinding file content) (fun x => rfl)
          (fun p => patSearch p content) p SecurityExpert.credentialPatterns
          credentialPatterns_nodup,
        count_filter_map_mk (SecurityExpert.subFinding file content) (fun x => rfl)
          (fun p => patSearch p content) p SecurityExpert.subprocessPatterns
          subprocessPatterns_nodup]
  constructor
  · intro hp
    constructor
    · rw [hcount,
          if_neg (show ¬(p ∈ SecurityExpert.subprocessPatterns ∧ patSearch p content = true)
            from fun hcon => cred_sub_disjoint p hp hcon.1),
          Nat.add_zero]
      by_cases hs : patSearch p content = true
      · rw [if_pos ⟨hp, hs⟩, if_pos hs]
      · rw [if_neg (fun hcon => hs hcon.2),
            if_neg (fun hcon => hs (by simpa using hcon))]
    · intro f hf hfp
      rcases mem_fileFindings hf with ⟨q, hq, _, rfl⟩ | ⟨q, hq, _, rfl⟩
      · exact ⟨rfl, rfl⟩
      · have hqp : q = p := Option.some.inj hfp
        subst hqp
        exact absurd hq (cred_sub_disjoint q hp)
  · intro hp
    constructor
    · rw [hcount,
          if_neg (show ¬(p ∈ SecurityExpert.credentialPatterns ∧ patSearch p content = true)
            from fun hcon => cred_sub_disjoint p hcon.1 hp),
          Nat.zero_add]
      by_cases hs : patSearch p content = true
      · rw [if_pos ⟨hp, hs⟩, if_pos hs]
      · rw [if_neg (fun hcon => hs hcon.2),
            if_neg (fun hcon => hs (by simpa using hcon))]
    · intro f hf hfp
      rcases mem_fileFindings hf with ⟨q, hq, _, rfl⟩ | ⟨q, hq, _, rfl⟩
      · have hqp : q = p := Option.some.inj hfp
        subst hqp
        exact absurd hp (cred_sub_disjoint q hq)
      · exact ⟨rfl, rfl⟩

/-- C6 witness: the subprocess clause applied to the sample content and the
import-subprocess pattern. -/
theorem claim_C6_witness :
    (((SecurityExpert.fileFindings "app.py" sampleText).filter
        (fun f => decide (f.patt = some (Pat.litTok "import subprocess")))).length
      = if patSearch (Pat.litTok "import subprocess") sampleText then 1 else 0) ∧
    ∀ f ∈ SecurityExpert.fileFindings "app.py" sampleText,
      f.patt = some (Pat.litTok "import subprocess") →
      f.ftype = "subprocess_vulnerability" ∧ f.priority = "critical" :=
  (claim_C6 "app.py" sampleText (Pat.litTok "import subprocess")).2 (by decide)

/-- C7: suggest_fixes is a deterministic function that succeeds on every
finding list whose security_vulnerability findings carry their pattern key
(all findings the detector constructs do): the empty list maps to the empty
fix list, every finding of a known kind contributes exactly one fix (so the
output length is the count of known-kind findings), that fix embeds the
finding itself (hence its priority) and carries the matching priority tag,
and a finding of an unknown kind is dropped silently, not an error. -/
theorem claim_C7 :
    SecurityExpert.suggest_fixes [] = .ok [] ∧
    (∀ issues : List Finding,
      (∀ f ∈ issues, f.ftype = "security_vulnerability" → f.patt ≠ none) →
      ∃ fixes, SecurityExpert.suggest_fixes issues = .ok fixes ∧
        fixes.length = issues.countP knownSecKind) ∧
    (∀ f : Finding, (f.ftype = "security_vulnerability" → f.patt ≠ none) →
      knownSecKind f = true →
      ∃ fx, SecurityExpert.suggest_fixes [f] = .ok [fx] ∧ fx.issue = f ∧
        (f.ftype = "security_vulnerability" → fx.priority = "high") ∧
        (f.ftype = "subprocess_vulnerability" → fx.priority = "critical")) ∧
    (∀ f : Finding, knownSecKind f = false →
      SecurityExpert.suggest_fixes [f] = .ok []) := by
  have hnil : SecurityExpert.suggest_fixes [] = .ok [] := rfl
  refine ⟨hnil, ?_, ?_, ?_⟩
  · intro issues
    induction issues with
    | nil => intro _; exact ⟨[], rfl, rfl⟩
    | cons i rest ih =>
      intro hwf
      obtain ⟨fixes, hfx, hlen⟩ := ih (fun f hf hft => hwf f (List.mem_cons_of_mem i hf) hft)
      by_cases h1 : i.ftype == "security_vulnerability"
      · have hft : i.ftype = "security_vulnerability" := by simpa using h1
        obtain ⟨p, hp⟩ :=
          Option.ne_none_iff_exists'.mp (hwf i (List.mem_cons_self i rest) hft)
        refine ⟨SecurityExpert.credFix i p :: fixes, ?_, ?_⟩
        · simp only [SecurityExpert.suggest_fixes, if_pos h1, hp, hfx]
          rfl
        · rw [List.length_cons, List.countP_cons, hlen,
              show knownSecKind i = true by simp [knownSecKind, h1]]
          simp
      · by_cases h2 : i.ftype == "subprocess_vulnerability"
        · refine ⟨SecurityExpert.subFix i :: fixes, ?_, ?_⟩
          · simp only [SecurityExpert.suggest_fixes, if_neg h1, if_pos h2, hfx]
            rfl
          · rw [List.length_cons, List.countP_cons, hlen,
                show knownSecKind i = true by simp [knownSecKind, h2]]
            simp
        · refine ⟨fixes, ?_, ?_⟩
          · simp only [SecurityExpert.suggest_fixes, if_neg h1, if_neg h2, hfx]
          · rw [List.countP_cons, hlen,
                show knownSecKind i = false by
                  simp only [knownSecKind, Bool.or_eq_true, not_or] at *
                  simp [h1, h2]]
            simp
  · intro f hwf hknown
    by_cases h1 : f.ftype == "security_vulnerability"
    · have hft : f.ftype = "security_vulnerability" := by simpa using h1
      obtain ⟨p, hp⟩ := Option.ne_none_iff_exists'.mp (hwf hft)
      refine ⟨SecurityExpert.credFix f p, ?_, rfl, fun _ => rfl, fun hcon => ?_⟩
      · simp only [SecurityExpert.suggest_fixes, if_pos h1, hp, hnil]
        rfl
      · rw [hft] at hcon
        exact absurd hcon (by decide)
    · by_cases h2 : f.ftype == "subprocess_vulnerability"
      · have hft : f.ftype = "subprocess_vulnerability" := by simpa using h2
        refine ⟨SecurityExpert.subFix f, ?_, rfl, fun hcon => ?_, fun _ => rfl⟩
        · simp only [SecurityExpert.suggest_fixes, if_neg h1, if_pos h2, hnil]
          rfl
        · rw [hft] at hcon
          exact absurd hcon (by decide)
      · exact absurd hknown (by simp [knownSecKind, h1, h2])
  · intro f hk
    have hk' := hk
    simp only [knownSecKind, Bool.or_eq_false_iff] at hk'
    simp [SecurityExpert.suggest_fixes, hk'.1, hk'.2]

/-- C7 witness: the success clause applied to a one-element list holding the
sample subprocess finding. -/
theorem claim_C7_witness :
    ∃ fixes, SecurityExpert.suggest_fixes [sampleSubFinding] = .ok fixes ∧
      fixes.length = [sampleSubFinding].countP knownSecKind :=
  claim_C7.2.1 [sampleSubFinding] (by decide)

end Clewcrew
